import Mathlib

/-!
Verification development for the pilot-jobs platform.

The definitions below are a shallow embedding of the TypeScript routes of the
repository:
* the job-ingestion endpoint (POST `/api/jobs`): row construction and upsert,
* the cron scrape endpoint (GET `/api/cron/scrape`): static job list, URL
  validation, entry-level / visa-sponsorship derivation, handler outcome,
* the entry-level recalculation endpoint,
* the URL-validation sweep endpoint,
* the max-hours filters of the jobs API and of the client jobs page.

JavaScript conventions are modelled explicitly: `x || d` on strings treats
both a missing value and the empty string as falsy; `x ? f x : null` on
numbers treats `0` as falsy; timestamps are natural numbers; the database is
a list of rows, and the Supabase upsert keyed on `application_url` replaces
the row on conflict and appends otherwise.
-/

/-- JavaScript `x || d` on an optional string: missing and `""` are falsy. -/
def jsOrStr (x : Option String) (d : String) : String :=
  match x with
  | some s => if s = "" then d else s
  | none => d

/-- JavaScript `x ? String(x) : null` on an optional string: missing and `""`
give `null`. -/
def jsOrNull (x : Option String) : Option String :=
  match x with
  | some s => if s = "" then none else some s
  | none => none

/-- JavaScript `x ? Number(x) : null` on an optional integer: missing and `0`
give `null`. -/
def jsNumOrNull (x : Option Int) : Option Int :=
  match x with
  | some v => if v = 0 then none else some v
  | none => none

/-- JavaScript `s.slice(0, n)`: the first `n` characters of `s`. -/
def jsSlice (s : String) (n : Nat) : String :=
  String.mk (s.data.take n)

theorem jsSlice_length (s : String) (n : Nat) : (jsSlice s n).length ≤ n := by
  show (s.data.take n).length ≤ n
  exact List.length_take_le n s.data

/-- A loosely typed raw job record, as posted by the scraper to
POST `/api/jobs`.  `none` stands for a missing / `null` / falsy field. -/
structure RawJob where
  title : Option String := none
  company : Option String := none
  location : Option String := none
  region : Option String := none
  position_type : Option String := none
  aircraft_type : Option String := none
  type_rating_required : Bool := false
  type_rating_provided : Bool := false
  min_total_hours : Option Int := none
  min_pic_hours : Option Int := none
  min_type_hours : Option Int := none
  license_required : Option String := none
  contract_type : Option String := none
  salary_info : Option String := none
  benefits : Option String := none
  description : Option String := none
  application_url : Option String := none
  source : Option String := none
  date_posted : Option String := none
deriving Repr, DecidableEq

/-- A `pilot_jobs` row as built by the POST `/api/jobs` ingestion path
(the columns that route writes). -/
structure PostRow where
  title : String
  company : String
  location : String
  region : String
  position_type : String
  aircraft_type : Option String
  type_rating_required : Bool
  type_rating_provided : Bool
  min_total_hours : Option Int
  min_pic_hours : Option Int
  min_type_hours : Option Int
  license_required : String
  contract_type : String
  salary_info : Option String
  benefits : Option String
  description : Option String
  application_url : String
  source : String
  date_posted : Option String
  date_scraped : Nat
  is_active : Bool
deriving Repr, DecidableEq

/-- The row construction of POST `/api/jobs` (`jobsToUpsert`), field by field
from the source: `title`, `company` and `location` are truncated with
`slice`, the other string fields are passed through `x || default`
untruncated, optional fields fall back to `null`, `date_scraped` is the
current time and `is_active` is `true`. -/
def buildPostRow (now : Nat) (j : RawJob) : PostRow :=
  { title := jsSlice (jsOrStr j.title "") 500
    company := jsSlice (jsOrStr j.company "") 255
    location := jsSlice (jsOrStr j.location "Not specified") 255
    region := jsOrStr j.region "global"
    position_type := jsOrStr j.position_type "other"
    aircraft_type := jsOrNull j.aircraft_type
    type_rating_required := j.type_rating_required
    type_rating_provided := j.type_rating_provided
    min_total_hours := jsNumOrNull j.min_total_hours
    min_pic_hours := jsNumOrNull j.min_pic_hours
    min_type_hours := jsNumOrNull j.min_type_hours
    license_required := jsOrStr j.license_required "ATPL/CPL"
    contract_type := jsOrStr j.contract_type "permanent"
    salary_info := jsOrNull j.salary_info
    benefits := jsOrNull j.benefits
    description := jsOrNull j.description
    application_url := jsOrStr j.application_url ""
    source := jsOrStr j.source "Scraped"
    date_posted := jsOrNull j.date_posted
    date_scraped := now
    is_active := true }

/-- Replace every row whose key equals the key of `r` by `r`. -/
def replaceBy {α : Type} (key : α → String) (db : List α) (r : α) : List α :=
  db.map (fun x => if key x = key r then r else x)

/-- The Supabase upsert keyed on `application_url`
(`upsert(..., { onConflict: 'application_url' })`): update the conflicting
row if the key exists, insert otherwise. -/
def upsertBy {α : Type} (key : α → String) (db : List α) (r : α) : List α :=
  if key r ∈ db.map key then replaceBy key db r else db ++ [r]

/-- Upsert a batch of rows, in order. -/
def upsertManyBy {α : Type} (key : α → String) (db : List α) (rows : List α) : List α :=
  rows.foldl (upsertBy key) db

theorem replaceBy_map_key {α : Type} (key : α → String) (db : List α) (r : α) :
    (replaceBy key db r).map key = db.map key := by
  induction db with
  | nil => rfl
  | cons a l ih =>
    simp only [replaceBy, List.map_cons] at *
    refine congrArg₂ _ ?_ ih
    by_cases h : key a = key r
    · simp [h]
    · simp [h]

theorem upsertBy_map_key {α : Type} (key : α → String) (db : List α) (r : α) :
    (upsertBy key db r).map key = db.map key ∨
      (upsertBy key db r).map key = db.map key ++ [key r] := by
  unfold upsertBy
  split
  · left; exact replaceBy_map_key key db r
  · right; simp

theorem mem_map_upsertBy {α : Type} (key : α → String) (db : List α) (r : α)
    (u : String) (h : u ∈ db.map key) : u ∈ (upsertBy key db r).map key := by
  rcases upsertBy_map_key key db r with heq | heq <;> rw [heq]
  · exact h
  · exact List.mem_append_left _ h

theorem key_mem_upsertBy_self {α : Type} (key : α → String) (db : List α) (r : α) :
    key r ∈ (upsertBy key db r).map key := by
  unfold upsertBy
  split
  · rw [replaceBy_map_key]; assumption
  · simp

theorem upsertBy_nodup {α : Type} (key : α → String) (db : List α) (r : α)
    (h : (db.map key).Nodup) : ((upsertBy key db r).map key).Nodup := by
  unfold upsertBy
  split
  · rw [replaceBy_map_key]; exact h
  · rename_i hnot
    simp only [List.map_append, List.map_cons, List.map_nil]
    rw [List.nodup_append]
    refine ⟨h, List.nodup_singleton _, ?_⟩
    intro u hu hmem
    simp only [List.mem_singleton] at hmem
    exact hnot (hmem ▸ hu)

theorem replaceBy_filter_self {α : Type} (key : α → String) (db : List α) (r : α)
    (h : (db.map key).Nodup) (hc : key r ∈ db.map key) :
    (replaceBy key db r).filter (fun x => key x == key r) = [r] := by
  induction db with
  | nil => simp at hc
  | cons a l ih =>
    simp only [List.map_cons, List.nodup_cons] at h
    simp only [List.map_cons, List.mem_cons] at hc
    by_cases ha : key a = key r
    · have hnone : ∀ x ∈ replaceBy key l r, ¬ (key x == key r) = true := by
        intro x hx
        rcases List.mem_map.mp hx with ⟨y, hy, hxy⟩
        have hky : key y ≠ key r := by
          intro hk
          apply h.1
          rw [ha, ← hk]
          exact List.mem_map_of_mem key hy
        have : x = y := by
          by_cases hcase : key y = key r
          · exact absurd hcase hky
          · simpa [hcase] using hxy.symm
        simp [this, hky]
      simp only [replaceBy, List.map_cons, ha, if_pos rfl, List.filter_cons,
        beq_self_eq_true, if_pos trivial]
      have : (List.map (fun x => if key x = key r then r else x) l).filter
          (fun x => key x == key r) = [] := by
        rw [List.filter_eq_nil_iff]
        intro x hx
        exact hnone x hx
      simp only [replaceBy] at this
      simp [this]
    · have hc' : key r ∈ l.map key := by
        rcases hc with hc | hc
        · exact absurd hc.symm ha
        · exact hc
      have := ih h.2 hc'
      simp only [replaceBy, List.map_cons, if_neg ha, List.filter_cons] at *
      simp only [beq_iff_eq, if_neg ha]
      exact this

theorem upsertBy_filter_self {α : Type} (key : α → String) (db : List α) (r : α)
    (h : (db.map key).Nodup) :
    (upsertBy key db r).filter (fun x => key x == key r) = [r] := by
  unfold upsertBy
  split
  · exact replaceBy_filter_self key db r h (by assumption)
  · rename_i hnot
    rw [List.filter_append]
    have : db.filter (fun x => key x == key r) = [] := by
      rw [List.filter_eq_nil_iff]
      intro x hx hbeq
      apply hnot
      rw [← beq_iff_eq.mp hbeq]
      exact List.mem_map_of_mem key hx
    simp [this]

theorem upsertBy_length_of_mem {α : Type} (key : α → String) (db : List α) (r : α)
    (hc : key r ∈ db.map key) : (upsertBy key db r).length = db.length := by
  unfold upsertBy
  simp [hc, replaceBy]

/-- The conservative entry-level rule of the recalculation endpoint
(`shouldBeEntryLevel`): explicit cadet position, or explicitly stated low
hours (< 500), or type rating provided on a non-captain position.
`type_rating_provided` and `min_total_hours` come from the database and may
be null. -/
def shouldBeEntryLevel (position_type : String) (type_rating_provided : Option Bool)
    (min_total_hours : Option Int) : Bool :=
  (position_type == "cadet") ||
  (match min_total_hours with
   | some h => decide (h < 500)
   | none => false) ||
  ((type_rating_provided == some true) && (position_type != "captain"))

/-- The entry-level rule inlined in the cron scrape endpoint
(`isEntryLevel = isCadetOrTrainee || isTypeRatingProvidedNonCaptain`);
the cron job records carry no hours data. -/
def isEntryLevelCron (position_type : String) (type_rating_provided : Bool) : Bool :=
  (position_type == "cadet") || (type_rating_provided && (position_type != "captain"))

/-- The known-sponsor company allowlist of the cron scrape endpoint
(`middleEastAirlines`). -/
def middleEastAirlines : List String :=
  ["Emirates", "Qatar Airways", "Etihad Airways", "flydubai"]

/-- The visa-sponsorship rule of the cron scrape endpoint:
`middleEastAirlines.includes(job.company) || job.region === 'middle_east'`. -/
def visaSponsorship (company region : String) : Bool :=
  middleEastAirlines.contains company || (region == "middle_east")

/-- Outcome of one `fetch` call: a response with an HTTP status, or a thrown
error (network failure / timeout). -/
inductive FetchResult where
  | ok (status : Nat)
  | err (msg : String)
deriving Repr, DecidableEq

/-- The `fetch` outcomes a given URL produces for a HEAD and for a GET
request. -/
structure UrlEnv where
  head : FetchResult
  get : FetchResult
deriving Repr, DecidableEq

/-- JavaScript `response.ok`: status in the 200–299 range. -/
def respOk (status : Nat) : Bool :=
  decide (200 ≤ status) && decide (status < 300)

/-- `validateUrl` of the cron scrape endpoint: HEAD accepting 200–299, 301
and 302; on a thrown HEAD, fall back to GET accepting only `response.ok`;
if both throw, return false.  All fetch errors are caught. -/
def validateUrlCron (env : UrlEnv) : Bool :=
  match env.head with
  | FetchResult.ok s => respOk s || (s == 301) || (s == 302)
  | FetchResult.err _ =>
    match env.get with
    | FetchResult.ok s => respOk s
    | FetchResult.err _ => false

/-- One entry of the `STATIC_JOBS` list of the cron scrape endpoint.
Fields absent from an entry are `none` / `false`. -/
structure StaticJob where
  title : String
  company : String
  location : String
  region : String
  position_type : String
  aircraft_type : Option String := none
  application_url : String
  source : String
  type_rating_required : Option Bool := none
  type_rating_provided : Option Bool := none
  contract_type : Option String := none
  salary_info : Option String := none
deriving Repr, DecidableEq

/-- The `STATIC_JOBS` list of the cron scrape endpoint, transcribed entry by
entry. -/
def STATIC_JOBS : List StaticJob :=
  [ { title := "Emirates Pilots (Captain & First Officer)"
      company := "Emirates"
      location := "Dubai, UAE"
      region := "middle_east"
      position_type := "first_officer"
      aircraft_type := some "A380/B777"
      application_url := "https://www.emiratesgroupcareers.com/pilots/"
      source := "Direct - Emirates"
      type_rating_provided := some true
      contract_type := some "permanent"
      salary_info := some "Tax-free competitive package" },
    { title := "Qatar Airways Pilots"
      company := "Qatar Airways"
      location := "Doha, Qatar"
      region := "middle_east"
      position_type := "first_officer"
      aircraft_type := some "A350/A380/B787/B777"
      application_url := "https://careers.qatarairways.com/global/en/c/pilots-jobs"
      source := "Direct - Qatar Airways"
      type_rating_provided := some true
      contract_type := some "permanent"
      salary_info := some "Tax-free competitive package" },
    { title := "Etihad Airways Pilots"
      company := "Etihad Airways"
      location := "Abu Dhabi, UAE"
      region := "middle_east"
      position_type := "first_officer"
      aircraft_type := some "A350/B787/B777"
      application_url := "https://careers.etihad.com/go/Pilot-Opportunities/4691401/"
      source := "Direct - Etihad"
      type_rating_provided := some true
      contract_type := some "permanent"
      salary_info := some "Tax-free competitive package" },
    { title := "Ryanair Pilots - B737"
      company := "Ryanair"
      location := "Europe (Multiple Bases)"
      region := "europe"
      position_type := "first_officer"
      aircraft_type := some "Boeing 737-800/MAX"
      application_url := "https://careers.ryanair.com/search/?q=pilot"
      source := "Direct - Ryanair"
      type_rating_provided := some true
      contract_type := some "permanent" },
    { title := "easyJet Pilots - A320"
      company := "easyJet"
      location := "UK/Europe (Multiple Bases)"
      region := "europe"
      position_type := "first_officer"
      aircraft_type := some "Airbus A320"
      application_url := "https://careers.easyjet.com/vacancies/pilots/"
      source := "Direct - easyJet"
      type_rating_provided := some true
      contract_type := some "permanent" },
    { title := "Wizz Air Pilots - A320/A321"
      company := "Wizz Air"
      location := "Europe (Multiple Bases)"
      region := "europe"
      position_type := "first_officer"
      aircraft_type := some "Airbus A320/A321"
      application_url := "https://wizzair.com/en-gb/information-and-services/about-us/careers/pilots"
      source := "Direct - Wizz Air"
      type_rating_provided := some true
      contract_type := some "permanent" },
    { title := "flydubai Pilots - B737 MAX"
      company := "flydubai"
      location := "Dubai, UAE"
      region := "middle_east"
      position_type := "first_officer"
      aircraft_type := some "Boeing 737 MAX"
      application_url := "https://careers.flydubai.com/en/jobs/?department=Pilots"
      source := "Direct - flydubai"
      type_rating_provided := some true
      contract_type := some "permanent" },
    { title := "Vueling Pilots - A320"
      company := "Vueling"
      location := "Barcelona, Spain"
      region := "europe"
      position_type := "first_officer"
      aircraft_type := some "Airbus A320"
      application_url := "https://careers.vueling.com/go/Flight-Crew/8838601/"
      source := "Direct - Vueling"
      type_rating_provided := some true
      contract_type := some "permanent" },
    { title := "Singapore Airlines Pilots"
      company := "Singapore Airlines"
      location := "Singapore"
      region := "asia"
      position_type := "first_officer"
      aircraft_type := some "A350/A380/B787/B777"
      application_url := "https://www.singaporeair.com/en_UK/sg/careers/"
      source := "Direct - Singapore Airlines"
      type_rating_provided := some true
      contract_type := some "permanent" },
    { title := "Cathay Pacific Pilots"
      company := "Cathay Pacific"
      location := "Hong Kong"
      region := "asia"
      position_type := "first_officer"
      aircraft_type := some "A350/B777"
      application_url := "https://careers.cathaypacific.com/jobs?department=Flight+Operations"
      source := "Direct - Cathay Pacific"
      type_rating_provided := some true
      contract_type := some "permanent" },
    { title := "Air France Pilots"
      company := "Air France"
      location := "Paris, France"
      region := "europe"
      position_type := "first_officer"
      aircraft_type := some "A320/A350/B777/B787"
      application_url := "https://recrutement.airfrance.com/offre-emploi/liste-offres.aspx"
      source := "Direct - Air France"
      type_rating_provided := some false
      contract_type := some "permanent" },
    { title := "Lufthansa Group Pilots"
      company := "Lufthansa"
      location := "Frankfurt/Munich, Germany"
      region := "europe"
      position_type := "first_officer"
      aircraft_type := some "A320/A350/B747/B777"
      application_url := "https://www.be-lufthansa.com/en/pilot"
      source := "Direct - Lufthansa"
      type_rating_provided := some true
      contract_type := some "permanent" } ]

/-- The `JobData` interface of the cron scrape endpoint. -/
structure JobData where
  title : String
  company : String
  location : String
  region : String
  position_type : String
  aircraft_type : Option String
  application_url : String
  source : String
  type_rating_required : Bool
  type_rating_provided : Bool
  contract_type : Option String
  salary_info : Option String
  date_scraped : Nat
  is_active : Bool
deriving Repr, DecidableEq

/-- The record pushed for a validated static job
(`{ ...job, date_scraped, is_active: true, type_rating_required: ... || false,
type_rating_provided: ... || false }`). -/
def mkJobData (now : Nat) (j : StaticJob) : JobData :=
  { title := j.title
    company := j.company
    location := j.location
    region := j.region
    position_type := j.position_type
    aircraft_type := j.aircraft_type
    application_url := j.application_url
    source := j.source
    type_rating_required := j.type_rating_required.getD false
    type_rating_provided := j.type_rating_provided.getD false
    contract_type := j.contract_type
    salary_info := j.salary_info
    date_scraped := now
    is_active := true }

/-- `scrapeJobs` of the cron scrape endpoint: validate every static job URL
(against the fetch oracle `env`) and keep exactly the jobs whose URL check
succeeds. -/
def scrapeJobs (env : String → UrlEnv) (now : Nat) : List JobData :=
  (STATIC_JOBS.filter (fun j => validateUrlCron (env j.application_url))).map (mkJobData now)

/-- A `pilot_jobs` row as built by the cron scrape endpoint (`jobsToUpsert`),
with the derived `is_entry_level` and `visa_sponsorship` flags. -/
structure CronRow where
  title : String
  company : String
  location : String
  region : String
  position_type : String
  aircraft_type : Option String
  type_rating_required : Bool
  type_rating_provided : Bool
  contract_type : String
  salary_info : Option String
  application_url : String
  source : String
  date_scraped : Nat
  is_active : Bool
  is_entry_level : Bool
  visa_sponsorship : Bool
deriving Repr, DecidableEq

/-- The row construction inside the cron scrape endpoint's `jobsToUpsert`
map, including the entry-level and visa-sponsorship derivations. -/
def cronNormalize (j : JobData) : CronRow :=
  { title := j.title
    company := j.company
    location := j.location
    region := j.region
    position_type := j.position_type
    aircraft_type := jsOrNull j.aircraft_type
    type_rating_required := j.type_rating_required
    type_rating_provided := j.type_rating_provided
    contract_type := jsOrStr j.contract_type "permanent"
    salary_info := jsOrNull j.salary_info
    application_url := j.application_url
    source := j.source
    date_scraped := j.date_scraped
    is_active := true
    is_entry_level := isEntryLevelCron j.position_type j.type_rating_provided
    visa_sponsorship := visaSponsorship j.company j.region }

/-- A `scrape_logs` row (schema `scrape_logs`): run outcome log record. -/
structure ScrapeLogRow where
  airline_name : String
  ats_type_detected : Option String
  scraper_used : Option String
  status : String
  jobs_found : Nat
  error_message : Option String
deriving Repr, DecidableEq

/-- A database write the cron scrape endpoint can issue.  The schema offers
both the `pilot_jobs` upsert and the `scrape_logs` insert; the handler code
only ever issues the former. -/
inductive DbEffect where
  | upsertPilotJobs (rows : List CronRow)
  | insertScrapeLog (log : ScrapeLogRow)
deriving Repr, DecidableEq

/-- Is this effect an insert into `scrape_logs`? -/
def isScrapeLogInsert : DbEffect → Bool
  | DbEffect.insertScrapeLog _ => true
  | DbEffect.upsertPilotJobs _ => false

/-- Is this effect an upsert into `pilot_jobs`? -/
def isPilotJobsUpsert : DbEffect → Bool
  | DbEffect.upsertPilotJobs _ => true
  | DbEffect.insertScrapeLog _ => false

/-- The environment a cron scrape run executes in: authorization outcome,
fetch oracle, Supabase configuration, and the persistence verdict. -/
structure CronEnv where
  authorized : Bool
  urlEnv : String → UrlEnv
  supabaseConfigured : Bool
  upsertError : Option String
  now : Nat

/-- The JSON response of the cron scrape endpoint (HTTP status, `success`
flag, `error` detail, `jobs_found`). -/
structure CronResponse where
  status : Nat
  success : Bool
  error : Option String
  jobs_found : Option Nat
deriving Repr, DecidableEq

/-- The GET handler of the cron scrape endpoint: every branch returns a
structured JSON response, and the returned effect trace records the database
writes it issued. -/
def cronGET (env : CronEnv) : CronResponse × List DbEffect :=
  if env.authorized = false then
    ({ status := 401, success := false, error := some "Unauthorized", jobs_found := none }, [])
  else
    let jobs := scrapeJobs env.urlEnv env.now
    if env.supabaseConfigured = false then
      ({ status := 500, success := false, error := some "Supabase not configured",
         jobs_found := some jobs.length }, [])
    else
      let rows := jobs.map cronNormalize
      match env.upsertError with
      | some m =>
        ({ status := 500, success := false, error := some m,
           jobs_found := some jobs.length }, [DbEffect.upsertPilotJobs rows])
      | none =>
        ({ status := 200, success := true, error := none,
           jobs_found := some jobs.length }, [DbEffect.upsertPilotJobs rows])

/-- The result object of `validateUrl` in the URL-validation endpoint. -/
structure ValidationResult where
  valid : Bool
  status : Option Nat
  error : Option String
deriving Repr, DecidableEq

/-- `validateUrl` of the URL-validation endpoint: HEAD request first — 404 is
dead, 200–299 / 301 / 302 are alive, anything else is dead with an HTTP
error; if HEAD throws, fall back to GET — 404 is dead, otherwise alive iff
`response.ok`; if GET throws too, dead with the thrown message.  Every
branch returns instead of raising. -/
def validateUrl (env : UrlEnv) : ValidationResult :=
  match env.head with
  | FetchResult.ok s =>
    if s = 404 then
      { valid := false, status := some s, error := some "Page not found (404)" }
    else if respOk s || (s == 301) || (s == 302) then
      { valid := true, status := some s, error := none }
    else
      { valid := false, status := some s, error := some ("HTTP " ++ toString s) }
  | FetchResult.err _ =>
    match env.get with
    | FetchResult.ok s =>
      if s = 404 then
        { valid := false, status := some s, error := some "Page not found (404)" }
      else
        { valid := respOk s, status := some s, error := none }
    | FetchResult.err m =>
      { valid := false, status := none, error := some m }

/-- Net effect of the URL-validation sweep on one row: an active row whose
URL check fails is marked inactive; every other row is untouched. -/
def sweepRow (env : String → UrlEnv) (r : CronRow) : CronRow :=
  if r.is_active = true ∧ (validateUrl (env r.application_url)).valid = false then
    { r with is_active := false }
  else
    r

/-- The URL-validation sweep (GET of the URL-validation endpoint) as a
database transformation: it checks every active posting's application URL
and deactivates exactly the rows whose check fails. -/
def validateSweep (env : String → UrlEnv) (db : List CronRow) : List CronRow :=
  db.map (sweepRow env)

/-- The max-hours predicate of the jobs API
(`!job.min_total_hours || job.min_total_hours <= maxHoursNum`): a job with
missing (or zero, falsy) stated hours is kept; otherwise it is kept iff its
hours do not exceed the requested maximum. -/
def apiMaxHoursKeep (maxHours : Int) (min_total_hours : Option Int) : Bool :=
  match min_total_hours with
  | none => true
  | some v => (v == 0) || decide (v ≤ maxHours)

/-- The max-hours predicate of the client-side `applyFilters`
(`!job.min_total_hours || job.min_total_hours <= filters.max_hours_required`). -/
def clientMaxHoursKeep (maxHours : Int) (min_total_hours : Option Int) : Bool :=
  match min_total_hours with
  | none => true
  | some v => (v == 0) || decide (v ≤ maxHours)

/-- The jobs-API max-hours filter over a list of rows. -/
def apiMaxHoursFilter (maxHours : Int) (jobs : List PostRow) : List PostRow :=
  jobs.filter (fun j => apiMaxHoursKeep maxHours j.min_total_hours)

/-- A raw job record with every optional field missing. -/
def emptyRaw : RawJob := {}

/-- A fetch oracle under which every URL answers HEAD with HTTP 200. -/
def env200 : String → UrlEnv :=
  fun _ => { head := FetchResult.ok 200, get := FetchResult.ok 200 }

/-- The application URL of the Ryanair static job, used as the URL whose
check is made to fail in isolation witnesses. -/
def deadUrl : String := "https://careers.ryanair.com/search/?q=pilot"

/-- A fetch oracle that fails both requests for `deadUrl` and answers 200
everywhere else. -/
def envDeadRyanair : String → UrlEnv :=
  fun v =>
    if v = deadUrl then
      { head := FetchResult.err "network timeout", get := FetchResult.err "network timeout" }
    else
      { head := FetchResult.ok 200, get := FetchResult.ok 200 }

/-- A concrete active `pilot_jobs` row. -/
def sampleCronRow : CronRow :=
  { title := "B737 Captain"
    company := "Enter Air"
    location := "Warsaw, Poland"
    region := "europe"
    position_type := "captain"
    aircraft_type := some "Boeing 737NG/MAX"
    type_rating_required := true
    type_rating_provided := false
    contract_type := "contract"
    salary_info := none
    application_url := "https://example.test/a"
    source := "Direct"
    date_scraped := 0
    is_active := true
    is_entry_level := false
    visa_sponsorship := false }

/-- A concrete scraped job record for the cron path. -/
def sampleJobData : JobData :=
  { title := "Emirates Pilots"
    company := "Emirates"
    location := "Dubai, UAE"
    region := "middle_east"
    position_type := "first_officer"
    aircraft_type := none
    application_url := "https://example.test/b"
    source := "Direct - Emirates"
    type_rating_required := false
    type_rating_provided := true
    contract_type := none
    salary_info := none
    date_scraped := 5
    is_active := true }

theorem mkJobData_application_url (now : Nat) (j : StaticJob) :
    (mkJobData now j).application_url = j.application_url := rfl

theorem cronNormalize_application_url (j : JobData) :
    (cronNormalize j).application_url = j.application_url := rfl

theorem sweepRow_application_url (env : String → UrlEnv) (r : CronRow) :
    (sweepRow env r).application_url = r.application_url := by
  unfold sweepRow
  split <;> rfl

theorem validateSweep_map_url (env : String → UrlEnv) (db : List CronRow) :
    (validateSweep env db).map CronRow.application_url = db.map CronRow.application_url := by
  unfold validateSweep
  rw [List.map_map]
  exact List.map_congr_left (fun r _ => sweepRow_application_url env r)

theorem scrape_isolation_aux (l : List StaticJob) (e1 e2 : String → UrlEnv)
    (now : Nat) (u : String) (h : ∀ v, v ≠ u → e1 v = e2 v) :
    ((l.filter (fun j => validateUrlCron (e1 j.application_url))).map (mkJobData now)).filter
        (fun r => !(r.application_url == u))
      = ((l.filter (fun j => validateUrlCron (e2 j.application_url))).map (mkJobData now)).filter
        (fun r => !(r.application_url == u)) := by
  induction l with
  | nil => rfl
  | cons a t ih =>
    by_cases ha : a.application_url = u
    · subst ha
      by_cases h1 : validateUrlCron (e1 a.application_url) = true <;>
      by_cases h2 : validateUrlCron (e2 a.application_url) = true <;>
        simp [List.filter_cons, h1, h2, mkJobData_application_url, ih]
    · have he : e1 a.application_url = e2 a.application_url := h _ ha
      by_cases h2 : validateUrlCron (e2 a.application_url) = true <;>
        simp [List.filter_cons, he, h2, mkJobData_application_url, ha, ih]

/-- C1: in the entry-level recalculation rule, `is_entry_level` is set to
true iff the position is `cadet`, or the stated minimum total hours are
non-null and below 500, or a type rating is provided on a non-captain
position; absence of hours data alone never sets the flag, a captain with a
provided type rating and null hours is not entry level, a cadet with no
hours data is; and the cron endpoint's inlined rule is this same rule
specialised to records with no hours data. -/
theorem c1_entry_level_rule :
    (∀ (pt : String) (trp : Option Bool) (mth : Option Int),
        shouldBeEntryLevel pt trp mth = true ↔
          (pt = "cadet" ∨ (∃ h, mth = some h ∧ h < 500) ∨ (trp = some true ∧ pt ≠ "captain")))
    ∧ shouldBeEntryLevel "captain" (some true) none = false
    ∧ shouldBeEntryLevel "cadet" none none = true
    ∧ (∀ (pt : String) (trp : Bool),
        isEntryLevelCron pt trp = shouldBeEntryLevel pt (some trp) none) := by
  refine ⟨?_, rfl, rfl, ?_⟩
  · intro pt trp mth
    cases mth with
    | none =>
      simp [shouldBeEntryLevel, Bool.or_eq_true, Bool.and_eq_true, beq_iff_eq,
        bne_iff_ne, decide_eq_true_eq]
    | some h =>
      simp [shouldBeEntryLevel, Bool.or_eq_true, Bool.and_eq_true, beq_iff_eq,
        bne_iff_ne, decide_eq_true_eq]
      tauto
  · intro pt trp
    cases trp <;> simp [isEntryLevelCron, shouldBeEntryLevel]

/-- C4: for every job record upserted by the cron scrape endpoint,
`visa_sponsorship` is true iff the company is in the known-sponsor
allowlist (Emirates, Qatar Airways, Etihad Airways, flydubai) or the region
is `middle_east`; otherwise it is false (the cron records carry no
source-stated visa field). -/
theorem c4_visa_rule : ∀ j : JobData,
    (cronNormalize j).visa_sponsorship = true ↔
      (j.company ∈ middleEastAirlines ∨ j.region = "middle_east") := by
  intro j
  show visaSponsorship j.company j.region = true ↔ _
  simp [visaSponsorship, List.contains, Bool.or_eq_true, beq_iff_eq]

/-- C2: upserting the same raw job record twice through the POST `/api/jobs`
persistence path (same `application_url`) leaves exactly one `pilot_jobs`
row for that URL — the filter on the URL returns a singleton — whose
`date_scraped` is the second (later) timestamp and whose every other field
comes from the latest input; the second upsert adds no row. -/
theorem c2_upsert_idempotent (db : List PostRow) (j : RawJob) (t1 t2 : Nat)
    (hnodup : (db.map PostRow.application_url).Nodup) (hle : t1 ≤ t2) :
    ((upsertBy PostRow.application_url
        (upsertBy PostRow.application_url db (buildPostRow t1 j))
        (buildPostRow t2 j)).filter
      (fun x => x.application_url == (buildPostRow t2 j).application_url))
        = [buildPostRow t2 j]
    ∧ (buildPostRow t2 j).date_scraped = t2
    ∧ t1 ≤ (buildPostRow t2 j).date_scraped
    ∧ (upsertBy PostRow.application_url
        (upsertBy PostRow.application_url db (buildPostRow t1 j))
        (buildPostRow t2 j)).length
      = (upsertBy PostRow.application_url db (buildPostRow t1 j)).length := by
  have hnd1 : ((upsertBy PostRow.application_url db (buildPostRow t1 j)).map
      PostRow.application_url).Nodup :=
    upsertBy_nodup PostRow.application_url db (buildPostRow t1 j) hnodup
  refine ⟨?_, rfl, hle, ?_⟩
  · exact upsertBy_filter_self PostRow.application_url
      (upsertBy PostRow.application_url db (buildPostRow t1 j)) (buildPostRow t2 j) hnd1
  · apply upsertBy_length_of_mem
    have hurl : (buildPostRow t2 j).application_url = (buildPostRow t1 j).application_url := rfl
    rw [hurl]
    exact key_mem_upsertBy_self PostRow.application_url db (buildPostRow t1 j)

/-- C2 witness: the theorem instantiated at the empty database, the empty
raw record, and timestamps 0 and 1. -/
theorem c2_upsert_idempotent_witness :
    ((upsertBy PostRow.application_url
        (upsertBy PostRow.application_url [] (buildPostRow 0 emptyRaw))
        (buildPostRow 1 emptyRaw)).filter
      (fun x => x.application_url == (buildPostRow 1 emptyRaw).application_url))
        = [buildPostRow 1 emptyRaw]
    ∧ (buildPostRow 1 emptyRaw).date_scraped = 1
    ∧ 0 ≤ (buildPostRow 1 emptyRaw).date_scraped
    ∧ (upsertBy PostRow.application_url
        (upsertBy PostRow.application_url [] (buildPostRow 0 emptyRaw))
        (buildPostRow 1 emptyRaw)).length
      = (upsertBy PostRow.application_url [] (buildPostRow 0 emptyRaw)).length :=
  c2_upsert_idempotent [] emptyRaw 0 1 (by simp) (by decide)

/-- C3: the cron scrape endpoint never lets a failure escape: every
execution yields either a success response with status 200 or a failure
response carrying error detail and status 401 or 500; a URL check whose
fetches both throw is absorbed into `false` rather than raising; and the
jobs kept for every URL other than `u` do not depend on the fetch outcome
at `u`, so one job's failing URL check does not block or corrupt the
others. -/
theorem c3_cron_error_containment :
    (∀ env : CronEnv,
        ((cronGET env).fst.success = true ∧ (cronGET env).fst.status = 200)
      ∨ ((cronGET env).fst.success = false ∧ (cronGET env).fst.error ≠ none
          ∧ ((cronGET env).fst.status = 401 ∨ (cronGET env).fst.status = 500)))
    ∧ (∀ hm gm : String,
        validateUrlCron { head := FetchResult.err hm, get := FetchResult.err gm } = false)
    ∧ (∀ (e1 e2 : String → UrlEnv) (now : Nat) (u : String),
        (∀ v, v ≠ u → e1 v = e2 v) →
        (scrapeJobs e1 now).filter (fun r => !(r.application_url == u))
          = (scrapeJobs e2 now).filter (fun r => !(r.application_url == u))) := by
  refine ⟨?_, ?_, ?_⟩
  · intro env
    rcases env with ⟨auth, uenv, sc, uerr, now⟩
    cases auth <;> cases sc <;> rcases uerr with _ | m <;> simp [cronGET]
  · intro hm gm
    rfl
  · intro e1 e2 now u h
    exact scrape_isolation_aux STATIC_JOBS e1 e2 now u h

/-- C3 witness: the isolation component applied to two concrete oracles
that differ only on the Ryanair URL (whose check fails in the second). -/
theorem c3_cron_error_containment_witness :
    (scrapeJobs env200 0).filter (fun r => !(r.application_url == deadUrl))
      = (scrapeJobs envDeadRyanair 0).filter (fun r => !(r.application_url == deadUrl)) :=
  c3_cron_error_containment.2.2 env200 envDeadRyanair 0 deadUrl
    (by intro v hv; simp [envDeadRyanair, env200, hv])

/-- An authorized, fully configured, error-free cron run environment. -/
def c5Env : CronEnv :=
  { authorized := true
    urlEnv := fun _ => { head := FetchResult.ok 200, get := FetchResult.ok 200 }
    supabaseConfigured := true
    upsertError := none
    now := 0 }

/-- C5 counterexample: an attempted cron scrape run writes zero `scrape_logs`
rows, not exactly one — on a concrete fully successful run the effect trace
contains no `scrape_logs` insert. -/
theorem c5_no_scrape_log_written_cex :
    ((cronGET c5Env).snd.countP isScrapeLogInsert) = 0
    ∧ ¬ ((cronGET c5Env).snd.countP isScrapeLogInsert) = 1 := by
  constructor
  · rfl
  · intro h
    have h0 : ((cronGET c5Env).snd.countP isScrapeLogInsert) = 0 := rfl
    rw [h0] at h
    exact Nat.zero_ne_one h

/-- C5 amended: the cron scrape endpoint writes no Scrape Run Record at all —
on every run, whatever the outcome, its effect trace contains zero
`scrape_logs` inserts, and every database write it issues is a `pilot_jobs`
upsert (in particular it never mutates an existing `scrape_logs` row). -/
theorem c5_amended_no_log_writes : ∀ env : CronEnv,
    (cronGET env).snd.countP isScrapeLogInsert = 0
    ∧ (cronGET env).snd.all isPilotJobsUpsert = true := by
  intro env
  rcases env with ⟨auth, uenv, sc, uerr, now⟩
  cases auth <;> cases sc <;> rcases uerr with _ | m <;>
    simp [cronGET, isScrapeLogInsert, isPilotJobsUpsert]

/-- C6: the scraping pipeline never hard-deletes a `pilot_jobs` row: the
upsert keeps every existing application URL in the database; the
URL-validation sweep keeps the URL multiset unchanged and its only change to
any row is flipping `is_active` to false; and a later re-scrape upsert of the
same URL (cron or POST path, both of which build rows with
`is_active = true`) leaves that URL's unique row active again. -/
theorem c6_no_hard_delete :
    (∀ (db : List CronRow) (r : CronRow) (u : String),
        u ∈ db.map CronRow.application_url →
        u ∈ (upsertBy CronRow.application_url db r).map CronRow.application_url)
    ∧ (∀ (env : String → UrlEnv) (db : List CronRow),
        (validateSweep env db).map CronRow.application_url = db.map CronRow.application_url)
    ∧ (∀ (env : String → UrlEnv) (r : CronRow),
        sweepRow env r = r ∨ sweepRow env r = { r with is_active := false })
    ∧ (∀ (env : String → UrlEnv) (db : List CronRow) (j : JobData),
        (db.map CronRow.application_url).Nodup →
        ((upsertBy CronRow.application_url (validateSweep env db) (cronNormalize j)).filter
            (fun x => x.application_url == (cronNormalize j).application_url))
          = [cronNormalize j]
        ∧ (cronNormalize j).is_active = true)
    ∧ (∀ (t : Nat) (j : RawJob) (db : List PostRow) (u : String),
        u ∈ db.map PostRow.application_url →
        u ∈ (upsertBy PostRow.application_url db (buildPostRow t j)).map PostRow.application_url) := by
  refine ⟨?_, ?_, ?_, ?_, ?_⟩
  · intro db r u h
    exact mem_map_upsertBy CronRow.application_url db r u h
  · intro env db
    exact validateSweep_map_url env db
  · intro env r
    unfold sweepRow
    split
    · right; rfl
    · left; rfl
  · intro env db j hnodup
    refine ⟨?_, rfl⟩
    apply upsertBy_filter_self
    rw [validateSweep_map_url]
    exact hnodup
  · intro t j db u h
    exact mem_map_upsertBy PostRow.application_url db (buildPostRow t j) u h

/-- C6 witness: the presence-preservation and reactivation components at a
concrete one-row database, fetch oracle and scraped record. -/
theorem c6_no_hard_delete_witness :
    "https://example.test/a"
      ∈ (upsertBy CronRow.application_url [sampleCronRow] sampleCronRow).map CronRow.application_url
    ∧ ((upsertBy CronRow.application_url (validateSweep env200 [sampleCronRow])
          (cronNormalize sampleJobData)).filter
        (fun x => x.application_url == (cronNormalize sampleJobData).application_url))
      = [cronNormalize sampleJobData]
    ∧ (cronNormalize sampleJobData).is_active = true := by
  refine ⟨?_, ?_, ?_⟩
  · exact c6_no_hard_delete.1 [sampleCronRow] sampleCronRow "https://example.test/a" (by decide)
  · exact (c6_no_hard_delete.2.2.2.1 env200 [sampleCronRow] sampleJobData (by decide)).1
  · exact (c6_no_hard_delete.2.2.2.1 env200 [sampleCronRow] sampleJobData (by decide)).2

/-- C7: the URL-validation sweep deactivates an active posting exactly when
its URL check reports the link dead, leaves a posting whose check succeeds
entirely unchanged, and the check itself reports HTTP 404 as dead and
HTTP 200 / 301 / 302 on the HEAD request as alive. -/
theorem c7_sweep_deactivates_dead :
    (∀ (env : String → UrlEnv) (r : CronRow), r.is_active = true →
        (((sweepRow env r).is_active = false) ↔
          (validateUrl (env r.application_url)).valid = false)
      ∧ ((validateUrl (env r.application_url)).valid = true → sweepRow env r = r))
    ∧ (∀ g : FetchResult, (validateUrl { head := FetchResult.ok 404, get := g }).valid = false)
    ∧ (∀ g : FetchResult,
        (validateUrl { head := FetchResult.ok 200, get := g }).valid = true
      ∧ (validateUrl { head := FetchResult.ok 301, get := g }).valid = true
      ∧ (validateUrl { head := FetchResult.ok 302, get := g }).valid = true) := by
  refine ⟨?_, ?_, ?_⟩
  · intro env r hr
    constructor
    · unfold sweepRow
      by_cases hv : (validateUrl (env r.application_url)).valid = false
      · rw [if_pos ⟨hr, hv⟩]
        simp [hv]
      · rw [if_neg (fun hc => hv hc.2)]
        simp [hr, hv]
    · intro hvt
      unfold sweepRow
      rw [if_neg]
      rintro ⟨_, hf⟩
      rw [hvt] at hf
      exact Bool.noConfusion hf
  · intro g
    rfl
  · intro g
    exact ⟨rfl, rfl, rfl⟩

/-- C7 witness: a concrete active posting whose URL answers HTTP 200 stays
active and unchanged. -/
theorem c7_sweep_deactivates_dead_witness :
    (((sweepRow env200 sampleCronRow).is_active = false) ↔
      (validateUrl (env200 sampleCronRow.application_url)).valid = false)
    ∧ sweepRow env200 sampleCronRow = sampleCronRow := by
  have h := c7_sweep_deactivates_dead.1 env200 sampleCronRow rfl
  exact ⟨h.1, h.2 rfl⟩

/-- A 51-character region value, longer than the schema's VARCHAR(50) cap. -/
def longRegion : String := "ABCDEFGHIJKLMNOPQRSTUVWXYZabcdefghijklmnopqrstuvwxy"

/-- A raw record whose region, position_type, source and date_posted all
exceed the schema's 50-character limit. -/
def c8Raw : RawJob :=
  { region := some longRegion
    position_type := some longRegion
    source := some longRegion
    date_posted := some longRegion }

/-- C8 counterexample: the ingestion path does not cap `region` to its
50-character schema limit — a 51-character region reaches the upserted row
untruncated. -/
theorem c8_region_not_capped_cex :
    (buildPostRow 0 c8Raw).region.length = 51
    ∧ ¬ (buildPostRow 0 c8Raw).region.length ≤ 50 := by
  constructor
  · rfl
  · decide

/-- C8 amended: only `title` (500), `company` (255) and `location` (255) are
length-capped by truncation in the POST `/api/jobs` ingestion path; every
other string field — `region`, `position_type`, `aircraft_type`,
`license_required`, `contract_type`, `source` and `date_posted` — is passed
through unchanged whenever the raw record supplies a non-empty value,
whatever its length. -/
theorem c8_amended_truncation : ∀ (t : Nat) (j : RawJob),
    (buildPostRow t j).title.length ≤ 500
    ∧ (buildPostRow t j).company.length ≤ 255
    ∧ (buildPostRow t j).location.length ≤ 255
    ∧ (∀ s, j.region = some s → s ≠ "" → (buildPostRow t j).region = s)
    ∧ (∀ s, j.position_type = some s → s ≠ "" → (buildPostRow t j).position_type = s)
    ∧ (∀ s, j.aircraft_type = some s → s ≠ "" → (buildPostRow t j).aircraft_type = some s)
    ∧ (∀ s, j.license_required = some s → s ≠ "" → (buildPostRow t j).license_required = s)
    ∧ (∀ s, j.contract_type = some s → s ≠ "" → (buildPostRow t j).contract_type = s)
    ∧ (∀ s, j.source = some s → s ≠ "" → (buildPostRow t j).source = s)
    ∧ (∀ s, j.date_posted = some s → s ≠ "" → (buildPostRow t j).date_posted = some s) := by
  intro t j
  refine ⟨jsSlice_length _ _, jsSlice_length _ _, jsSlice_length _ _,
    ?_, ?_, ?_, ?_, ?_, ?_, ?_⟩ <;> intro s hs hne
  all_goals simp [buildPostRow, jsOrStr, jsOrNull, hs, hne]

/-- C8 witness: the amended theorem at a record whose region, position_type,
source and date_posted are all 51 characters long — each reaches the row
untruncated, while the truncated title stays within its cap. -/
theorem c8_amended_truncation_witness :
    (buildPostRow 0 c8Raw).title.length ≤ 500
    ∧ (buildPostRow 0 c8Raw).region = longRegion
    ∧ (buildPostRow 0 c8Raw).position_type = longRegion
    ∧ (buildPostRow 0 c8Raw).source = longRegion
    ∧ (buildPostRow 0 c8Raw).date_posted = some longRegion :=
  ⟨(c8_amended_truncation 0 c8Raw).1,
    (c8_amended_truncation 0 c8Raw).2.2.2.1 longRegion rfl (by decide),
    (c8_amended_truncation 0 c8Raw).2.2.2.2.1 longRegion rfl (by decide),
    (c8_amended_truncation 0 c8Raw).2.2.2.2.2.2.2.2.1 longRegion rfl (by decide),
    (c8_amended_truncation 0 c8Raw).2.2.2.2.2.2.2.2.2 longRegion rfl (by decide)⟩

/-- C9 counterexample: a raw record missing `license_required`,
`contract_type` and `location` is upserted with the placeholder strings
`"ATPL/CPL"`, `"permanent"` and `"Not specified"`, not with null. -/
theorem c9_placeholder_strings_cex :
    (buildPostRow 0 emptyRaw).license_required = "ATPL/CPL"
    ∧ (buildPostRow 0 emptyRaw).contract_type = "permanent"
    ∧ (buildPostRow 0 emptyRaw).location = "Not specified" := by
  refine ⟨rfl, rfl, ?_⟩
  decide

/-- C9 amended: missing optional numeric fields and the missing optional
text fields `aircraft_type`, `salary_info`, `benefits`, `description` and
`date_posted` become null in the upserted row; missing `license_required`,
`contract_type` and `location`, however, receive the schema-default
placeholder strings `"ATPL/CPL"`, `"permanent"` and `"Not specified"`. -/
theorem c9_amended_null_defaults : ∀ (t : Nat) (j : RawJob),
    (j.min_total_hours = none → (buildPostRow t j).min_total_hours = none)
    ∧ (j.min_pic_hours = none → (buildPostRow t j).min_pic_hours = none)
    ∧ (j.min_type_hours = none → (buildPostRow t j).min_type_hours = none)
    ∧ (j.aircraft_type = none → (buildPostRow t j).aircraft_type = none)
    ∧ (j.salary_info = none → (buildPostRow t j).salary_info = none)
    ∧ (j.benefits = none → (buildPostRow t j).benefits = none)
    ∧ (j.description = none → (buildPostRow t j).description = none)
    ∧ (j.date_posted = none → (buildPostRow t j).date_posted = none)
    ∧ (j.license_required = none → (buildPostRow t j).license_required = "ATPL/CPL")
    ∧ (j.contract_type = none → (buildPostRow t j).contract_type = "permanent")
    ∧ (j.location = none → (buildPostRow t j).location = "Not specified") := by
  intro t j
  refine ⟨?_, ?_, ?_, ?_, ?_, ?_, ?_, ?_, ?_, ?_, ?_⟩ <;> intro h
  all_goals simp only [buildPostRow, jsNumOrNull, jsOrNull, jsOrStr, jsSlice, h]
  all_goals decide

/-- C9 witness: the amended theorem at the all-missing raw record. -/
theorem c9_amended_null_defaults_witness :
    (buildPostRow 0 emptyRaw).min_total_hours = none
    ∧ (buildPostRow 0 emptyRaw).aircraft_type = none
    ∧ (buildPostRow 0 emptyRaw).license_required = "ATPL/CPL" :=
  ⟨(c9_amended_null_defaults 0 emptyRaw).1 rfl,
    (c9_amended_null_defaults 0 emptyRaw).2.2.2.1 rfl,
    (c9_amended_null_defaults 0 emptyRaw).2.2.2.2.2.2.2.2.1 rfl⟩

/-- C10 counterexample: with a requested maximum of −10, a job whose
`min_total_hours` is −5 is excluded by both the API and the client max-hours
filter although −5 is not a positive number. -/
theorem c10_negative_exclusion_cex :
    apiMaxHoursKeep (-10) (some (-5)) = false
    ∧ clientMaxHoursKeep (-10) (some (-5)) = false
    ∧ ((-5 : Int) < 0) := by
  refine ⟨rfl, rfl, ?_⟩
  decide

/-- C10 amended: in both the jobs API and the client-side filter, a job with
null or zero `min_total_hours` is always retained, and a job is excluded
exactly when its `min_total_hours` is a nonzero number strictly greater
than the requested maximum (for a nonnegative requested maximum this means
a positive number); the two filters agree on every input. -/
theorem c10_amended_max_hours : ∀ (maxHours : Int) (m : Option Int),
    apiMaxHoursKeep maxHours none = true
    ∧ apiMaxHoursKeep maxHours (some 0) = true
    ∧ (apiMaxHoursKeep maxHours m = false ↔ ∃ v, m = some v ∧ v ≠ 0 ∧ maxHours < v)
    ∧ clientMaxHoursKeep maxHours m = apiMaxHoursKeep maxHours m := by
  intro maxHours m
  refine ⟨rfl, rfl, ?_, ?_⟩
  · cases m with
    | none => simp [apiMaxHoursKeep]
    | some v =>
      simp only [apiMaxHoursKeep, Bool.or_eq_false_iff, beq_eq_false_iff_ne,
        decide_eq_false_iff_not, Option.some.injEq]
      constructor
      · rintro ⟨hne, hgt⟩
        exact ⟨v, rfl, hne, by omega⟩
      · rintro ⟨w, hw, hne, hgt⟩
        cases hw
        exact ⟨hne, by omega⟩
  · cases m <;> rfl
